import Mathlib

/-!
# Chat relay handler of server.js

A shallow embedding of the POST /api/chat handler of server.js (lines 36 to 76).

The handler is a function of three things: the bearer credential read at start-up,
the behaviour of the upstream (what the awaited fetch gives back for a request), and the
parsed request body. Its effects are recorded in a log: the outbound calls made and the
responses sent with res.status(..).json(..). A body given to res.json is recorded as the
JavaScript value passed, a body given to JSON.stringify likewise.
-/

namespace Relay

/-- JavaScript values that reach the handler: what JSON.parse can produce, and undefined
(the value of a property that is absent). A number is recorded by its value; 0 and -0
coincide. An object is the list of its own properties, each key once. -/
inductive JSVal where
  | undefined : JSVal
  | null : JSVal
  | bool (b : Bool) : JSVal
  | num (q : ℚ) : JSVal
  | str (s : String) : JSVal
  | arr (xs : List JSVal) : JSVal
  | obj (fields : List (String × JSVal)) : JSVal

/-- A thrown Error object; the handler reads only its message. -/
structure JSError where
  message : String

/-- The named properties the handler reads with dot syntax or by destructuring. None of
them exists on a built-in prototype, so on a value that is not an object the read gives
undefined (or throws, on undefined and null). -/
inductive PropName where
  | messages : PropName
  | error : PropName
  | choices : PropName
  | message : PropName
  | content : PropName

/-- The property key as written in the source. -/
def PropName.key : PropName → String
  | .messages => "messages"
  | .error => "error"
  | .choices => "choices"
  | .message => "message"
  | .content => "content"

/-- ToBoolean: undefined, null, false, 0 and the empty string are falsy, all else is truthy
(every array and every object, empty ones included). -/
def truthy : JSVal → Bool
  | .undefined => false
  | .null => false
  | .bool b => b
  | .num q => decide (q ≠ 0)
  | .str s => decide (s ≠ "")
  | .arr _ => true
  | .obj _ => true

/-- Array.isArray. -/
def isArray : JSVal → Bool
  | .arr _ => true
  | _ => false

/-- The value of a || b. -/
def jsOr (a b : JSVal) : JSVal :=
  if truthy a then a else b

/-- The TypeError of V8 for reading a property of undefined or null. -/
def readTypeError (base : String) (name : String) : JSError :=
  ⟨"Cannot read properties of " ++ base ++ " (reading \x27" ++ name ++ "\x27)"⟩

/-- The TypeError of V8 for destructuring req.body when it is undefined or null. -/
def destructureTypeError (base : String) : JSError :=
  ⟨"Cannot destructure property \x27messages\x27 of \x27req.body\x27 as it is " ++ base ++ "."⟩

/-- Dot access v.p for one of the property names of the handler. -/
def getProp (v : JSVal) (p : PropName) : Except JSError JSVal :=
  match v with
  | .undefined => .error (readTypeError "undefined" p.key)
  | .null => .error (readTypeError "null" p.key)
  | .obj fields => .ok ((fields.lookup p.key).getD .undefined)
  | _ => .ok .undefined

/-- Index access v[0]. On an array the first element, on a string its first character
(a string of one UTF-16 unit in JavaScript, here of one code point), on an object the
property named 0; undefined when there is none. -/
def index0 (v : JSVal) : Except JSError JSVal :=
  match v with
  | .undefined => .error (readTypeError "undefined" "0")
  | .null => .error (readTypeError "null" "0")
  | .arr xs => .ok (xs.head?.getD .undefined)
  | .str s => .ok ((s.data.head?.map (fun c => JSVal.str (String.singleton c))).getD .undefined)
  | .obj fields => .ok ((fields.lookup "0").getD .undefined)
  | _ => .ok .undefined

/-- Line 38, the destructuring of req.body: throws on undefined and null, reads the
property messages otherwise. -/
def destructureMessages (reqBody : JSVal) : Except JSError JSVal :=
  match reqBody with
  | .undefined => .error (destructureTypeError "undefined")
  | .null => .error (destructureTypeError "null")
  | v => getProp v .messages

/-- The argument list of an outbound fetch call; body is the value given to
JSON.stringify. -/
structure FetchRequest where
  url : String
  method : String
  headers : List (String × String)
  body : JSVal

/-- What awaiting fetch gives: a thrown error, or a response with its status and the
outcome of response.json() (the parsed body, or the error thrown when the body does not
parse). -/
inductive FetchResult where
  | throws (e : JSError) : FetchResult
  | response (status : Nat) (json : Except JSError JSVal) : FetchResult

/-- The ok flag of a fetch response, as node-fetch and the Fetch standard define it:
status in 200..299. -/
def responseOk (status : Nat) : Bool :=
  decide (200 ≤ status) && decide (status < 300)

/-- A response sent with res.status(status).json(body); body is the value given to
res.json. -/
structure HttpResponse where
  status : Nat
  body : JSVal

/-- What a block of the handler did: the outbound calls it made, the responses it sent,
and the exception that left it, if any. -/
structure Outcome where
  calls : List FetchRequest
  sent : List HttpResponse
  thrown : Option JSError

/-- A block that ends with return res.status(status).json(body). -/
def respond (calls : List FetchRequest) (status : Nat) (body : JSVal) : Outcome :=
  ⟨calls, [⟨status, body⟩], none⟩

/-- A block that is left by an exception. -/
def raise (calls : List FetchRequest) (e : JSError) : Outcome :=
  ⟨calls, [], some e⟩

/-- Lines 44 to 59: the fetch call built from the credential and the messages value. -/
def chatCompletionRequest (apiKey : String) (messages : JSVal) : FetchRequest where
  url := "https://api.openai.com/v1/chat/completions"
  method := "POST"
  headers := [("Authorization", "Bearer " ++ apiKey), ("Content-Type", "application/json")]
  body := .obj [("model", .str "gpt-3.5-turbo"), ("messages", messages),
    ("max_tokens", .num 1000), ("temperature", .num 0.7), ("top_p", .num 1),
    ("frequency_penalty", .num 0), ("presence_penalty", .num 0)]

/-- The body of the 400 response of line 41. -/
def badRequestBody : JSVal :=
  .obj [("error", .str "\x27messages\x27 field is required and must be an array.")]

/-- The body of the 500 response of line 68. -/
def invalidResponseBody : JSVal :=
  .obj [("error", .str "Invalid response from OpenAI API")]

/-- Whether a response accepts the status code: 100..999. -/
def validStatus (status : Nat) : Bool :=
  decide (100 ≤ status) && decide (status ≤ 999)

/-- The RangeError thrown when a response is sent with a status code outside 100..999, in
the wording of Node (writeHead, reached from res.json under Express 4). -/
def invalidStatusError (status : Nat) : JSError :=
  ⟨"Invalid status code: " ++ toString status⟩

/-- Lines 61 to 64, the branch taken when response.ok is false. The status of the upstream
is given to res.status as it is: sending with a status outside 100..999 throws a
RangeError inside the try block. The order is that of Express 4, where the payload is
read before the response is written; Express 5 throws from res.status before the payload
is read, which changes only which message the 500 response carries when both fail. -/
def relayUpstreamError (calls : List FetchRequest) (status : Nat)
    (json : Except JSError JSVal) : Outcome :=
  match json with
  | .error e => raise calls e
  | .ok err =>
    match getProp err .error with
    | .error e => raise calls e
    | .ok payload =>
      if validStatus status then
        respond calls status (.obj [("error", jsOr payload (.str "OpenAI API error"))])
      else raise calls (invalidStatusError status)

/-- Lines 66 to 71, the path taken when response.ok is true. -/
def relayReply (calls : List FetchRequest) (json : Except JSError JSVal) : Outcome :=
  match json with
  | .error e => raise calls e
  | .ok data =>
    match getProp data .choices with
    | .error e => raise calls e
    | .ok choices =>
      if !truthy choices then respond calls 500 invalidResponseBody
      else
        match index0 choices with
        | .error e => raise calls e
        | .ok first =>
          match getProp first .message with
          | .error e => raise calls e
          | .ok message =>
            if !truthy message then respond calls 500 invalidResponseBody
            else
              match getProp message .content with
              | .error e => raise calls e
              | .ok content => respond calls 200 (.obj [("reply", content)])

/-- Lines 38 to 71, the try block. -/
def tryBlock (apiKey : String) (fetch : FetchRequest → FetchResult) (reqBody : JSVal) :
    Outcome :=
  match destructureMessages reqBody with
  | .error e => raise [] e
  | .ok messages =>
    if !truthy messages || !isArray messages then respond [] 400 badRequestBody
    else
      let call := chatCompletionRequest apiKey messages
      match fetch call with
      | .throws e => raise [call] e
      | .response status json =>
        if !responseOk status then relayUpstreamError [call] status json
        else relayReply [call] json

/-- Lines 72 to 75, the catch block run on the outcome of the try block: an exception that
left the try block is answered with a 500 response. -/
def catchBlock (tried : Outcome) : Outcome :=
  match tried.thrown with
  | none => tried
  | some error =>
    { calls := tried.calls
      sent := tried.sent ++ [⟨500, .obj [("error",
        jsOr (.str error.message) (.str "Internal server error"))]⟩]
      thrown := none }

/-- Lines 36 to 76, the handler of POST /api/chat. -/
def handler (apiKey : String) (fetch : FetchRequest → FetchResult) (reqBody : JSVal) :
    Outcome :=
  catchBlock (tryBlock apiKey fetch reqBody)

/-- The chain data.choices[0].message.content, as line 71 reads it. -/
def firstContent (data : JSVal) : Except JSError JSVal :=
  match getProp data .choices with
  | .error e => .error e
  | .ok choices =>
    match index0 choices with
    | .error e => .error e
    | .ok first =>
      match getProp first .message with
      | .error e => .error e
      | .ok message => getProp message .content

/-- The test v === undefined. -/
def isUndefined : JSVal → Bool
  | .undefined => true
  | _ => false

/-- The property names JSON.stringify writes for the body given to res.json: the keys of
the object whose value is not undefined. -/
def serializedKeys : JSVal → List String
  | .obj fields => (fields.filter (fun kv => !isUndefined kv.2)).map Prod.fst
  | _ => []

/-- The test typeof v === "string". -/
def isString : JSVal → Bool
  | .str _ => true
  | _ => false

/-! ## Auxiliary facts about the blocks of the handler -/

theorem destructureMessages_of_getProp {reqBody m : JSVal}
    (h : getProp reqBody .messages = .ok m) : destructureMessages reqBody = .ok m := by
  cases reqBody <;> simp_all [destructureMessages, getProp]

theorem tryBlock_of_array (apiKey : String) (fetch : FetchRequest → FetchResult)
    {reqBody : JSVal} {msgs : List JSVal} (h : getProp reqBody .messages = .ok (.arr msgs)) :
    tryBlock apiKey fetch reqBody =
      match fetch (chatCompletionRequest apiKey (.arr msgs)) with
      | .throws e => raise [chatCompletionRequest apiKey (.arr msgs)] e
      | .response status json =>
        if !responseOk status then
          relayUpstreamError [chatCompletionRequest apiKey (.arr msgs)] status json
        else relayReply [chatCompletionRequest apiKey (.arr msgs)] json := by
  simp [tryBlock, destructureMessages_of_getProp h, truthy, isArray]

theorem relayUpstreamError_calls (calls : List FetchRequest) (status : Nat)
    (json : Except JSError JSVal) : (relayUpstreamError calls status json).calls = calls := by
  unfold relayUpstreamError
  repeat (first | rfl | split)

theorem relayReply_calls (calls : List FetchRequest) (json : Except JSError JSVal) :
    (relayReply calls json).calls = calls := by
  unfold relayReply
  repeat (first | rfl | split)

theorem catchBlock_calls (tried : Outcome) : (catchBlock tried).calls = tried.calls := by
  unfold catchBlock
  split <;> rfl

theorem truthy_of_content {message : JSVal} {s : String}
    (h : getProp message .content = .ok (.str s)) : truthy message = true := by
  cases message <;> simp_all [getProp, truthy]

theorem getProp_of_destructureMessages {reqBody m : JSVal}
    (h : destructureMessages reqBody = .ok m) : getProp reqBody .messages = .ok m := by
  cases reqBody <;> simp_all [destructureMessages, getProp]

theorem isArray_eq_true {m : JSVal} (h : isArray m = true) : ∃ msgs, m = .arr msgs := by
  cases m <;> simp_all [isArray]

theorem truthy_jsOr (a b : JSVal) (hb : truthy b = true) : truthy (jsOr a b) = true := by
  unfold jsOr
  split <;> assumption

theorem catchBlock_respond (calls : List FetchRequest) (status : Nat) (body : JSVal) :
    catchBlock (respond calls status body) = respond calls status body := rfl

theorem catchBlock_raise (calls : List FetchRequest) (e : JSError) :
    catchBlock (raise calls e) =
      respond calls 500
        (.obj [("error", jsOr (.str e.message) (.str "Internal server error"))]) := rfl

/-- The ways the branch for a response that is not ok can end. -/
theorem relayUpstreamError_cases (calls : List FetchRequest) (status : Nat)
    (json : Except JSError JSVal) :
    (∃ e, relayUpstreamError calls status json = raise calls e)
      ∨ ∃ err payload, json = .ok err ∧ getProp err .error = .ok payload
          ∧ validStatus status = true
          ∧ relayUpstreamError calls status json =
              respond calls status (.obj [("error", jsOr payload (.str "OpenAI API error"))]) := by
  cases json with
  | error e => exact Or.inl ⟨e, rfl⟩
  | ok err =>
    cases hp : getProp err .error with
    | error e => exact Or.inl ⟨e, by simp [relayUpstreamError, hp]⟩
    | ok payload =>
      by_cases hv : validStatus status = true
      · exact Or.inr ⟨err, payload, rfl, hp, hv, by simp [relayUpstreamError, hp, hv]⟩
      · exact Or.inl ⟨invalidStatusError status, by simp [relayUpstreamError, hp, hv]⟩

/-- The ways the path for a response that is ok can end. -/
theorem relayReply_cases (calls : List FetchRequest) (json : Except JSError JSVal) :
    (∃ e, relayReply calls json = raise calls e)
      ∨ relayReply calls json = respond calls 500 invalidResponseBody
      ∨ ∃ data content, json = .ok data ∧ firstContent data = .ok content
          ∧ relayReply calls json = respond calls 200 (.obj [("reply", content)]) := by
  cases json with
  | error e => exact Or.inl ⟨e, rfl⟩
  | ok data =>
    cases hc : getProp data .choices with
    | error e => exact Or.inl ⟨e, by simp [relayReply, hc]⟩
    | ok choices =>
      by_cases htc : truthy choices = true
      · cases hi : index0 choices with
        | error e => exact Or.inl ⟨e, by simp [relayReply, hc, htc, hi]⟩
        | ok first =>
          cases hm : getProp first .message with
          | error e => exact Or.inl ⟨e, by simp [relayReply, hc, htc, hi, hm]⟩
          | ok message =>
            by_cases htm : truthy message = true
            · cases hct : getProp message .content with
              | error e => exact Or.inl ⟨e, by simp [relayReply, hc, htc, hi, hm, htm, hct]⟩
              | ok content =>
                refine Or.inr (Or.inr ⟨data, content, rfl, ?_, ?_⟩)
                · simp [firstContent, hc, hi, hm, hct]
                · simp [relayReply, hc, htc, hi, hm, htm, hct]
            · exact Or.inr (Or.inl (by simp [relayReply, hc, htc, hi, hm, htm]))
      · exact Or.inr (Or.inl (by simp [relayReply, hc, htc]))

/-- The ways the try block can end. -/
theorem tryBlock_cases (apiKey : String) (fetch : FetchRequest → FetchResult)
    (reqBody : JSVal) :
    (∃ calls e, tryBlock apiKey fetch reqBody = raise calls e)
      ∨ tryBlock apiKey fetch reqBody = respond [] 400 badRequestBody
      ∨ (∃ calls, tryBlock apiKey fetch reqBody = respond calls 500 invalidResponseBody)
      ∨ (∃ msgs status err payload, getProp reqBody .messages = .ok (.arr msgs)
          ∧ fetch (chatCompletionRequest apiKey (.arr msgs)) = .response status (.ok err)
          ∧ responseOk status = false ∧ getProp err .error = .ok payload
          ∧ validStatus status = true
          ∧ tryBlock apiKey fetch reqBody =
              respond [chatCompletionRequest apiKey (.arr msgs)] status
                (.obj [("error", jsOr payload (.str "OpenAI API error"))]))
      ∨ ∃ msgs status data content, getProp reqBody .messages = .ok (.arr msgs)
          ∧ fetch (chatCompletionRequest apiKey (.arr msgs)) = .response status (.ok data)
          ∧ responseOk status = true ∧ firstContent data = .ok content
          ∧ tryBlock apiKey fetch reqBody =
              respond [chatCompletionRequest apiKey (.arr msgs)] 200
                (.obj [("reply", content)]) := by
  cases hd : destructureMessages reqBody with
  | error e => exact Or.inl ⟨[], e, by simp [tryBlock, hd]⟩
  | ok m =>
    by_cases ha : isArray m = true
    · obtain ⟨msgs, rfl⟩ := isArray_eq_true ha
      have hreq := getProp_of_destructureMessages hd
      rw [tryBlock_of_array apiKey fetch hreq]
      cases hf : fetch (chatCompletionRequest apiKey (.arr msgs)) with
      | throws e => exact Or.inl ⟨_, e, rfl⟩
      | response status json =>
        by_cases hok : responseOk status = true
        · simp only [hok, Bool.not_true, Bool.false_eq_true, if_false]
          rcases relayReply_cases [chatCompletionRequest apiKey (.arr msgs)] json with
            ⟨e, h⟩ | h | ⟨data, content, rfl, hfc, h⟩
          · exact Or.inl ⟨_, e, h⟩
          · exact Or.inr (Or.inr (Or.inl ⟨_, h⟩))
          · exact Or.inr (Or.inr (Or.inr (Or.inr
              ⟨msgs, status, data, content, hreq, hf, hok, hfc, h⟩)))
        · have hok' : responseOk status = false := by simpa using hok
          simp only [hok', Bool.not_false, if_true]
          rcases relayUpstreamError_cases [chatCompletionRequest apiKey (.arr msgs)] status
            json with ⟨e, h⟩ | ⟨err, payload, rfl, hp, hv, h⟩
          · exact Or.inl ⟨_, e, h⟩
          · exact Or.inr (Or.inr (Or.inr (Or.inl
              ⟨msgs, status, err, payload, hreq, hf, hok', hp, hv, h⟩)))
    · have ha' : isArray m = false := by simpa using ha
      exact Or.inr (Or.inl (by simp [tryBlock, hd, ha']))

theorem getProp_messages_of_present {reqBody : JSVal} (hu : reqBody ≠ .undefined)
    (hn : reqBody ≠ .null) : ∃ m, getProp reqBody .messages = .ok m := by
  cases reqBody <;> simp_all [getProp]

theorem isArray_eq_false_of_ne {m : JSVal} (h : ∀ msgs, m ≠ .arr msgs) :
    isArray m = false := by
  cases m <;> simp_all [isArray]

theorem isUndefined_of_truthy {e : JSVal} (h : truthy e = true) : isUndefined e = false := by
  cases e <;> simp_all [truthy, isUndefined]

theorem serializedKeys_single (key : String) (v : JSVal) :
    serializedKeys (.obj [(key, v)]) = if isUndefined v then [] else [key] := by
  cases hv : isUndefined v <;> simp [serializedKeys, hv]

/-! ## Theorems -/

/-- C1, the claim as stated fails: when the request body is absent, req.body being
undefined, the destructuring of line 38 throws before the check of line 40 and the handler
answers 500 with the message of the TypeError, not 400. -/
theorem absent_body_counterexample :
    (handler "sk" (fun _ => .throws ⟨"network unreachable"⟩) .undefined).sent
        = [⟨500, .obj [("error", .str
            "Cannot destructure property \x27messages\x27 of \x27req.body\x27 as it is undefined.")]⟩]
      ∧ (handler "sk" (fun _ => .throws ⟨"network unreachable"⟩) .undefined).calls = [] :=
  ⟨rfl, rfl⟩

/-- C1 as amended: when the request body is present, neither undefined nor null, and its
messages property is absent or is not an array, the handler sends one response, status
400 with the fixed error body, and calls no upstream, whatever the upstream would
answer. -/
theorem handler_rejects_non_array (apiKey : String) (fetch : FetchRequest → FetchResult)
    (reqBody : JSVal) (hu : reqBody ≠ .undefined) (hn : reqBody ≠ .null)
    (hna : ∀ msgs, getProp reqBody .messages ≠ .ok (.arr msgs)) :
    (handler apiKey fetch reqBody).sent =
        [⟨400, .obj [("error", .str "\x27messages\x27 field is required and must be an array.")]⟩]
      ∧ (handler apiKey fetch reqBody).calls = []
      ∧ (handler apiKey fetch reqBody).thrown = none := by
  obtain ⟨m, hm⟩ := getProp_messages_of_present hu hn
  have hnot : isArray m = false :=
    isArray_eq_false_of_ne (fun msgs h => hna msgs (by rw [hm, h]))
  simp [handler, tryBlock, destructureMessages_of_getProp hm, hnot, respond, catchBlock,
    badRequestBody]

/-- Witness of C1 as amended: a body whose messages is the string hi, and an upstream that
would answer 200 with a valid completion. -/
theorem handler_rejects_non_array_witness :
    (handler "sk" (fun _ => .response 200 (.ok (.obj [("choices",
        .arr [.obj [("message", .obj [("content", .str "Hello!")])]])])))
        (.obj [("messages", .str "hi")])).sent =
        [⟨400, .obj [("error", .str "\x27messages\x27 field is required and must be an array.")]⟩]
      ∧ (handler "sk" (fun _ => .response 200 (.ok (.obj [("choices",
        .arr [.obj [("message", .obj [("content", .str "Hello!")])]])])))
        (.obj [("messages", .str "hi")])).calls = []
      ∧ (handler "sk" (fun _ => .response 200 (.ok (.obj [("choices",
        .arr [.obj [("message", .obj [("content", .str "Hello!")])]])])))
        (.obj [("messages", .str "hi")])).thrown = none :=
  handler_rejects_non_array "sk" _ (.obj [("messages", .str "hi")]) (by simp) (by simp)
    (fun msgs h => by simp [getProp, PropName.key] at h)

/-- C2: when messages is an array, of any length and with elements of any shape, the
handler makes exactly one outbound call, to the chat-completion endpoint, and the body of
that call carries the array itself under messages together with the fixed model and the
five fixed generation parameters, and nothing else. -/
theorem handler_calls_upstream_once (apiKey : String) (fetch : FetchRequest → FetchResult)
    (reqBody : JSVal) (msgs : List JSVal)
    (h : getProp reqBody .messages = .ok (.arr msgs)) :
    (handler apiKey fetch reqBody).calls =
      [{ url := "https://api.openai.com/v1/chat/completions"
         method := "POST"
         headers := [("Authorization", "Bearer " ++ apiKey),
           ("Content-Type", "application/json")]
         body := .obj [("model", .str "gpt-3.5-turbo"), ("messages", .arr msgs),
           ("max_tokens", .num 1000), ("temperature", .num 0.7), ("top_p", .num 1),
           ("frequency_penalty", .num 0), ("presence_penalty", .num 0)] }] := by
  rw [handler, catchBlock_calls, tryBlock_of_array apiKey fetch h]
  split
  · rfl
  · split
    · rw [relayUpstreamError_calls]; rfl
    · rw [relayReply_calls]; rfl

/-- Witness of C2: an empty messages array next to a caller-supplied model, and an
upstream that throws. -/
theorem handler_calls_upstream_once_witness :
    (handler "sk" (fun _ => .throws ⟨"network unreachable"⟩)
        (.obj [("model", .str "gpt-4"), ("messages", .arr [])])).calls =
      [{ url := "https://api.openai.com/v1/chat/completions"
         method := "POST"
         headers := [("Authorization", "Bearer " ++ "sk"),
           ("Content-Type", "application/json")]
         body := .obj [("model", .str "gpt-3.5-turbo"), ("messages", .arr []),
           ("max_tokens", .num 1000), ("temperature", .num 0.7), ("top_p", .num 1),
           ("frequency_penalty", .num 0), ("presence_penalty", .num 0)] }] :=
  handler_calls_upstream_once "sk" _ (.obj [("model", .str "gpt-4"), ("messages", .arr [])])
    [] rfl

/-- C5: on a valid request, when the upstream answers 2xx with a body whose choices is a
non-empty array and whose first choice carries message.content equal to a string s (the
empty string included), the handler sends one response, status 200 with body reply s; the
later choices play no part. -/
theorem handler_replies_first_choice (apiKey : String) (fetch : FetchRequest → FetchResult)
    (reqBody : JSVal) (msgs : List JSVal) (status : Nat) (data first message : JSVal)
    (rest : List JSVal) (s : String)
    (hreq : getProp reqBody .messages = .ok (.arr msgs))
    (hup : fetch (chatCompletionRequest apiKey (.arr msgs)) = .response status (.ok data))
    (hlo : 200 ≤ status) (hhi : status < 300)
    (hchoices : getProp data .choices = .ok (.arr (first :: rest)))
    (hmessage : getProp first .message = .ok message)
    (hcontent : getProp message .content = .ok (.str s)) :
    (handler apiKey fetch reqBody).sent = [⟨200, .obj [("reply", .str s)]⟩]
      ∧ (handler apiKey fetch reqBody).thrown = none := by
  have hok : responseOk status = true := by simp [responseOk, hlo, hhi]
  have hta : truthy (.arr (first :: rest)) = true := rfl
  simp [handler, tryBlock_of_array apiKey fetch hreq, hup, hok, relayReply, hchoices, hta,
    index0, hmessage, truthy_of_content hcontent, hcontent, respond, catchBlock]

/-- Witness of C5: two choices, the first with the empty string as content. -/
theorem handler_replies_first_choice_witness :
    (handler "sk" (fun _ => .response 201 (.ok (.obj [("choices",
        .arr [.obj [("message", .obj [("content", .str "")])],
          .obj [("message", .obj [("content", .str "later")])]])])))
        (.obj [("messages", .arr [.str "hi"])])).sent = [⟨200, .obj [("reply", .str "")]⟩]
      ∧ (handler "sk" (fun _ => .response 201 (.ok (.obj [("choices",
        .arr [.obj [("message", .obj [("content", .str "")])],
          .obj [("message", .obj [("content", .str "later")])]])])))
        (.obj [("messages", .arr [.str "hi"])])).thrown = none :=
  handler_replies_first_choice "sk" _ (.obj [("messages", .arr [.str "hi"])]) [.str "hi"] 201
    (.obj [("choices", .arr [.obj [("message", .obj [("content", .str "")])],
      .obj [("message", .obj [("content", .str "later")])]])])
    (.obj [("message", .obj [("content", .str "")])]) (.obj [("content", .str "")])
    [.obj [("message", .obj [("content", .str "later")])]] "" rfl rfl (by decide) (by decide)
    rfl rfl rfl

/-- C6: on a valid request, when the outbound call throws an error e, the handler sends
one response, status 500, whose error field is the message of e when that message is not
empty and the string Internal server error otherwise. -/
theorem handler_answers_thrown_fetch (apiKey : String) (fetch : FetchRequest → FetchResult)
    (reqBody : JSVal) (msgs : List JSVal) (e : JSError)
    (hreq : getProp reqBody .messages = .ok (.arr msgs))
    (hup : fetch (chatCompletionRequest apiKey (.arr msgs)) = .throws e) :
    (handler apiKey fetch reqBody).sent =
        [⟨500, .obj [("error",
          .str (if e.message = "" then "Internal server error" else e.message))]⟩]
      ∧ (handler apiKey fetch reqBody).thrown = none := by
  by_cases hmsg : e.message = "" <;>
    simp [handler, tryBlock_of_array apiKey fetch hreq, hup, raise, catchBlock, jsOr, truthy,
      hmsg]

/-- Witness of C6: an upstream that throws an error with an empty message. -/
theorem handler_answers_thrown_fetch_witness :
    (handler "sk" (fun _ => .throws ⟨""⟩) (.obj [("messages", .arr [])])).sent =
        [⟨500, .obj [("error",
          .str (if (JSError.mk "").message = "" then "Internal server error"
            else (JSError.mk "").message))]⟩]
      ∧ (handler "sk" (fun _ => .throws ⟨""⟩) (.obj [("messages", .arr [])])).thrown = none :=
  handler_answers_thrown_fetch "sk" _ (.obj [("messages", .arr [])]) [] ⟨""⟩ rfl rfl

/-- C9: two request bodies with the same messages array, whatever else they carry, lead to
the same outbound calls and, against the same upstream, to the same responses: the whole
outcome of the handler is the same, and the body of the call is built from the array and
constants only. -/
theorem handler_ignores_other_fields (apiKey : String) (fetch : FetchRequest → FetchResult)
    (body₁ body₂ : JSVal) (msgs : List JSVal)
    (h₁ : getProp body₁ .messages = .ok (.arr msgs))
    (h₂ : getProp body₂ .messages = .ok (.arr msgs)) :
    handler apiKey fetch body₁ = handler apiKey fetch body₂
      ∧ (handler apiKey fetch body₁).calls = [chatCompletionRequest apiKey (.arr msgs)]
      ∧ (handler apiKey fetch body₂).calls = [chatCompletionRequest apiKey (.arr msgs)] := by
  have hc : ∀ body, getProp body .messages = .ok (.arr msgs) →
      (handler apiKey fetch body).calls = [chatCompletionRequest apiKey (.arr msgs)] := by
    intro body h
    rw [handler, catchBlock_calls, tryBlock_of_array apiKey fetch h]
    split
    · rfl
    · split
      · rw [relayUpstreamError_calls]
      · rw [relayReply_calls]
  refine ⟨?_, hc body₁ h₁, hc body₂ h₂⟩
  rw [handler, handler, tryBlock_of_array apiKey fetch h₁, tryBlock_of_array apiKey fetch h₂]

/-- Witness of C9: one body asks for another model, token cap and temperature. -/
theorem handler_ignores_other_fields_witness :
    handler "sk" (fun _ => .response 200 (.ok (.obj [("choices",
        .arr [.obj [("message", .obj [("content", .str "Hello!")])]])])))
        (.obj [("messages", .arr [.str "hi"])])
      = handler "sk" (fun _ => .response 200 (.ok (.obj [("choices",
        .arr [.obj [("message", .obj [("content", .str "Hello!")])]])])))
        (.obj [("model", .str "gpt-4"), ("max_tokens", .num 5), ("temperature", .num 2),
          ("messages", .arr [.str "hi"])])
      ∧ (handler "sk" (fun _ => .response 200 (.ok (.obj [("choices",
        .arr [.obj [("message", .obj [("content", .str "Hello!")])]])])))
        (.obj [("messages", .arr [.str "hi"])])).calls
        = [chatCompletionRequest "sk" (.arr [.str "hi"])]
      ∧ (handler "sk" (fun _ => .response 200 (.ok (.obj [("choices",
        .arr [.obj [("message", .obj [("content", .str "Hello!")])]])])))
        (.obj [("model", .str "gpt-4"), ("max_tokens", .num 5), ("temperature", .num 2),
          ("messages", .arr [.str "hi"])])).calls
        = [chatCompletionRequest "sk" (.arr [.str "hi"])] :=
  handler_ignores_other_fields "sk" _ (.obj [("messages", .arr [.str "hi"])])
    (.obj [("model", .str "gpt-4"), ("max_tokens", .num 5), ("temperature", .num 2),
      ("messages", .arr [.str "hi"])]) [.str "hi"] rfl rfl

/-- C3, the claim as stated fails: an upstream 503 whose body does not parse as JSON is
answered with status 500, not 503; an upstream 429 whose error payload is the empty
string is relayed with the fallback string in its place; and an upstream status of 99,
which a response does not accept, is answered with status 500. -/
theorem upstream_error_relay_counterexample :
    responseOk 503 = false
      ∧ (handler "sk"
          (fun _ => .response 503 (.error ⟨"Unexpected token < in JSON at position 0"⟩))
          (.obj [("messages", .arr [])])).sent
        = [⟨500, .obj [("error", .str "Unexpected token < in JSON at position 0")]⟩]
      ∧ responseOk 429 = false
      ∧ getProp (.obj [("error", .str "")]) .error = .ok (.str "")
      ∧ (handler "sk" (fun _ => .response 429 (.ok (.obj [("error", .str "")])))
          (.obj [("messages", .arr [])])).sent
        = [⟨429, .obj [("error", .str "OpenAI API error")]⟩]
      ∧ responseOk 99 = false ∧ validStatus 99 = false
      ∧ (handler "sk" (fun _ => .response 99 (.ok (.obj [("error", .str "bad")])))
          (.obj [("messages", .arr [])])).sent.map HttpResponse.status = [500] :=
  ⟨rfl, rfl, rfl, rfl, rfl, rfl, rfl, rfl⟩

/-- C3 as amended: on a valid request, when the upstream answers with a status in
100..999 outside 200..299 and a body that parses as JSON, is not null and has a truthy
error property, the handler sends one response whose status is the upstream status and
whose error field is that upstream payload, unchanged. -/
theorem handler_relays_upstream_error (apiKey : String) (fetch : FetchRequest → FetchResult)
    (reqBody : JSVal) (msgs : List JSVal) (status : Nat) (err payload : JSVal)
    (hreq : getProp reqBody .messages = .ok (.arr msgs))
    (hup : fetch (chatCompletionRequest apiKey (.arr msgs)) = .response status (.ok err))
    (hst : status < 200 ∨ 300 ≤ status) (hmin : 100 ≤ status) (hmax : status ≤ 999)
    (hpayload : getProp err .error = .ok payload) (htruthy : truthy payload = true) :
    (handler apiKey fetch reqBody).sent = [⟨status, .obj [("error", payload)]⟩]
      ∧ (handler apiKey fetch reqBody).thrown = none := by
  have hok : responseOk status = false := by
    simp only [responseOk, Bool.and_eq_false_iff, decide_eq_false_iff_not]
    omega
  have hv : validStatus status = true := by simp [validStatus, hmin, hmax]
  simp [handler, tryBlock_of_array apiKey fetch hreq, hup, hok, relayUpstreamError, hpayload,
    hv, jsOr, htruthy, respond, catchBlock]

/-- Witness of C3 as amended: an upstream 401 with an error object. -/
theorem handler_relays_upstream_error_witness :
    (handler "sk" (fun _ => .response 401 (.ok (.obj [("error",
        .obj [("message", .str "Incorrect API key provided"), ("code", .null)])])))
        (.obj [("messages", .arr [])])).sent
        = [⟨401, .obj [("error",
            .obj [("message", .str "Incorrect API key provided"), ("code", .null)])]⟩]
      ∧ (handler "sk" (fun _ => .response 401 (.ok (.obj [("error",
        .obj [("message", .str "Incorrect API key provided"), ("code", .null)])])))
        (.obj [("messages", .arr [])])).thrown = none :=
  handler_relays_upstream_error "sk" _ (.obj [("messages", .arr [])]) [] 401
    (.obj [("error", .obj [("message", .str "Incorrect API key provided"), ("code", .null)])])
    (.obj [("message", .str "Incorrect API key provided"), ("code", .null)])
    rfl rfl (by decide) (by decide) (by decide) rfl rfl

/-- C10, the claim as stated fails: an upstream 404 whose JSON body has no error property
is relayed with the error field set to the string OpenAI API error, which is not
undefined. -/
theorem missing_error_field_counterexample :
    responseOk 404 = false
      ∧ getProp (.obj [("message", .str "Not Found")]) .error = .ok .undefined
      ∧ (handler "sk" (fun _ => .response 404 (.ok (.obj [("message", .str "Not Found")])))
          (.obj [("messages", .arr [])])).sent
        = [⟨404, .obj [("error", .str "OpenAI API error")]⟩]
      ∧ isString (.str "OpenAI API error") = true ∧ isString .undefined = false :=
  ⟨rfl, rfl, rfl, rfl, rfl⟩

/-- C10 as amended: on a valid request, when the upstream answers with a status in
100..999 outside 200..299 and a JSON body, not null, that has no error property, the
handler sends one response with the upstream status whose error field is the string
OpenAI API error. -/
theorem handler_defaults_missing_error (apiKey : String) (fetch : FetchRequest → FetchResult)
    (reqBody : JSVal) (msgs : List JSVal) (status : Nat) (err : JSVal)
    (hreq : getProp reqBody .messages = .ok (.arr msgs))
    (hup : fetch (chatCompletionRequest apiKey (.arr msgs)) = .response status (.ok err))
    (hst : status < 200 ∨ 300 ≤ status) (hmin : 100 ≤ status) (hmax : status ≤ 999)
    (habsent : getProp err .error = .ok .undefined) :
    (handler apiKey fetch reqBody).sent = [⟨status, .obj [("error", .str "OpenAI API error")]⟩]
      ∧ (handler apiKey fetch reqBody).thrown = none := by
  have hok : responseOk status = false := by
    simp only [responseOk, Bool.and_eq_false_iff, decide_eq_false_iff_not]
    omega
  have hv : validStatus status = true := by simp [validStatus, hmin, hmax]
  simp [handler, tryBlock_of_array apiKey fetch hreq, hup, hok, relayUpstreamError, habsent,
    hv, jsOr, truthy, respond, catchBlock]

/-- Witness of C10 as amended: an upstream 502 whose body is the empty object. -/
theorem handler_defaults_missing_error_witness :
    (handler "sk" (fun _ => .response 502 (.ok (.obj []))) (.obj [("messages", .arr [])])).sent
        = [⟨502, .obj [("error", .str "OpenAI API error")]⟩]
      ∧ (handler "sk" (fun _ => .response 502 (.ok (.obj [])))
          (.obj [("messages", .arr [])])).thrown = none :=
  handler_defaults_missing_error "sk" _ (.obj [("messages", .arr [])]) [] 502 (.obj [])
    rfl rfl (by decide) (by decide) (by decide) rfl

/-- C4, the claim as stated fails: an upstream 200 whose first choice has a message
without content is answered with status 200 and a reply that is undefined; and an upstream
200 whose choices array is empty is answered with status 500 carrying the message of the
TypeError thrown by reading message of undefined. -/
theorem malformed_upstream_counterexample :
    firstContent (.obj [("choices", .arr [.obj [("message", .obj [])]])]) = .ok .undefined
      ∧ (handler "sk"
          (fun _ => .response 200 (.ok (.obj [("choices", .arr [.obj [("message", .obj [])]])])))
          (.obj [("messages", .arr [])])).sent
        = [⟨200, .obj [("reply", .undefined)]⟩]
      ∧ (handler "sk" (fun _ => .response 200 (.ok (.obj [("choices", .arr [])])))
          (.obj [("messages", .arr [])])).sent
        = [⟨500, .obj [("error",
            .str "Cannot read properties of undefined (reading \x27message\x27)")]⟩]
      ∧ "Cannot read properties of undefined (reading \x27message\x27)"
        ≠ "Invalid response from OpenAI API" :=
  ⟨rfl, rfl, rfl, by decide⟩

/-- C4 as amended: on a valid request, when the upstream answers 2xx with a parsed body,
not null, that has no choices property, or whose choices is a non-empty array whose first
element, not null, has no message property, the handler sends one response, status 500
with the error Invalid response from OpenAI API. -/
theorem handler_rejects_malformed_upstream (apiKey : String)
    (fetch : FetchRequest → FetchResult) (reqBody : JSVal) (msgs : List JSVal) (status : Nat)
    (data : JSVal)
    (hreq : getProp reqBody .messages = .ok (.arr msgs))
    (hup : fetch (chatCompletionRequest apiKey (.arr msgs)) = .response status (.ok data))
    (hlo : 200 ≤ status) (hhi : status < 300)
    (hbad : getProp data .choices = .ok .undefined
      ∨ ∃ first rest, getProp data .choices = .ok (.arr (first :: rest))
          ∧ getProp first .message = .ok .undefined) :
    (handler apiKey fetch reqBody).sent =
        [⟨500, .obj [("error", .str "Invalid response from OpenAI API")]⟩]
      ∧ (handler apiKey fetch reqBody).thrown = none := by
  have hok : responseOk status = true := by simp [responseOk, hlo, hhi]
  have htu : truthy .undefined = false := rfl
  rcases hbad with hc | ⟨first, rest, hc, hm⟩
  · simp [handler, tryBlock_of_array apiKey fetch hreq, hup, hok, relayReply, hc, htu, respond,
      catchBlock, invalidResponseBody]
  · have hta : truthy (.arr (first :: rest)) = true := rfl
    simp [handler, tryBlock_of_array apiKey fetch hreq, hup, hok, relayReply, hc, hta, index0,
      hm, htu, respond, catchBlock, invalidResponseBody]

/-- Witness of C4 as amended: an upstream 200 whose first choice has no message. -/
theorem handler_rejects_malformed_upstream_witness :
    (handler "sk"
        (fun _ => .response 200 (.ok (.obj [("choices", .arr [.obj [("index", .num 0)]])])))
        (.obj [("messages", .arr [])])).sent
        = [⟨500, .obj [("error", .str "Invalid response from OpenAI API")]⟩]
      ∧ (handler "sk"
        (fun _ => .response 200 (.ok (.obj [("choices", .arr [.obj [("index", .num 0)]])])))
        (.obj [("messages", .arr [])])).thrown = none :=
  handler_rejects_malformed_upstream "sk" _ (.obj [("messages", .arr [])]) [] 200
    (.obj [("choices", .arr [.obj [("index", .num 0)]])]) rfl rfl (by decide) (by decide)
    (Or.inr ⟨.obj [("index", .num 0)], [], rfl, rfl⟩)

/-- C7, the claim as stated fails: an upstream 200 whose first choice has the number 42
as content is answered with status 200 and reply 42, which is not a string. -/
theorem reply_not_string_counterexample :
    (handler "sk" (fun _ => .response 200 (.ok (.obj [("choices",
        .arr [.obj [("message", .obj [("content", .num 42)])]])])))
        (.obj [("messages", .arr [])])).sent
        = [⟨200, .obj [("reply", .num 42)]⟩]
      ∧ isString (.num 42) = false :=
  ⟨rfl, rfl⟩

/-- C7 as amended: every response of the handler with status 200 answers a valid request
for which the upstream gave a 2xx status and a parsed body, and its body is reply v where v
is the value of choices[0].message.content in that upstream body, of whatever type the
upstream sent; so the reply is a string exactly when the upstream content is one. -/
theorem ok_response_relays_content (apiKey : String) (fetch : FetchRequest → FetchResult)
    (reqBody : JSVal) (r : HttpResponse)
    (hr : r ∈ (handler apiKey fetch reqBody).sent) (h200 : r.status = 200) :
    ∃ msgs status data content, getProp reqBody .messages = .ok (.arr msgs)
      ∧ fetch (chatCompletionRequest apiKey (.arr msgs)) = .response status (.ok data)
      ∧ responseOk status = true ∧ firstContent data = .ok content
      ∧ r.body = .obj [("reply", content)] := by
  unfold handler at hr
  rcases tryBlock_cases apiKey fetch reqBody with ⟨calls, e, h⟩ | h | ⟨calls, h⟩ |
    ⟨msgs, status, err, payload, hreq, hf, hok, hp, hv, h⟩ |
    ⟨msgs, status, data, content, hreq, hf, hok, hfc, h⟩
  · rw [h, catchBlock_raise] at hr
    simp only [respond, List.mem_singleton] at hr
    subst hr
    simp at h200
  · rw [h, catchBlock_respond] at hr
    simp only [respond, List.mem_singleton] at hr
    subst hr
    simp at h200
  · rw [h, catchBlock_respond] at hr
    simp only [respond, List.mem_singleton] at hr
    subst hr
    simp at h200
  · rw [h, catchBlock_respond] at hr
    simp only [respond, List.mem_singleton] at hr
    subst hr
    simp only at h200
    subst h200
    simp [responseOk] at hok
  · rw [h, catchBlock_respond] at hr
    simp only [respond, List.mem_singleton] at hr
    subst hr
    exact ⟨msgs, status, data, content, hreq, hf, hok, hfc, rfl⟩

/-- Witness of C7 as amended: an upstream 200 with the content Hello!. -/
theorem ok_response_relays_content_witness :
    ∃ msgs status data content,
      getProp (.obj [("messages", .arr [])]) .messages = .ok (.arr msgs)
      ∧ (fun _ => FetchResult.response 200 (.ok (.obj [("choices",
          .arr [.obj [("message", .obj [("content", .str "Hello!")])]])])))
          (chatCompletionRequest "sk" (.arr msgs)) = .response status (.ok data)
      ∧ responseOk status = true ∧ firstContent data = .ok content
      ∧ (HttpResponse.mk 200 (.obj [("reply", .str "Hello!")])).body
          = .obj [("reply", content)] :=
  ok_response_relays_content "sk" (fun _ => .response 200 (.ok (.obj [("choices",
      .arr [.obj [("message", .obj [("content", .str "Hello!")])]])])))
    (.obj [("messages", .arr [])]) ⟨200, .obj [("reply", .str "Hello!")]⟩
    (List.Mem.head _) rfl

/-- C8, the claim as stated fails in its description of the 200 response: an upstream 200
whose first choice has a message without content is answered with status 200 and a body
whose reply is undefined, so that the body written carries neither a reply nor an
error. -/
theorem reply_absent_counterexample :
    (handler "sk" (fun _ => .response 200 (.ok (.obj [("choices",
        .arr [.obj [("message", .obj [("role", .str "assistant")])]])])))
        (.obj [("messages", .arr [])])).sent
        = [⟨200, .obj [("reply", .undefined)]⟩]
      ∧ (handler "sk" (fun _ => .response 200 (.ok (.obj [("choices",
        .arr [.obj [("message", .obj [("role", .str "assistant")])]])])))
        (.obj [("messages", .arr [])])).thrown = none
      ∧ serializedKeys (.obj [("reply", .undefined)]) = [] :=
  ⟨rfl, rfl, rfl⟩

/-- C8 as amended: for every request body, an absent one included, and every behaviour of
the upstream, the handler ends without an exception and has sent exactly one response,
which is one of two. Either it has status 200, answers a valid request for which the
upstream gave a 2xx status and a parsed body, and its body is reply v with v the value of
choices[0].message.content in that upstream body, unchecked: the body written carries
reply exactly when v is not undefined. Or its body is error e with e a truthy value, hence
written, and its status is 400, 500, or the status, in 100..999, of an upstream answer
that was not ok. -/
theorem handler_total (apiKey : String) (fetch : FetchRequest → FetchResult)
    (reqBody : JSVal) :
    (handler apiKey fetch reqBody).thrown = none
      ∧ ∃ r, (handler apiKey fetch reqBody).sent = [r]
        ∧ ((r.status = 200
            ∧ ∃ msgs status data content, getProp reqBody .messages = .ok (.arr msgs)
                ∧ fetch (chatCompletionRequest apiKey (.arr msgs))
                    = .response status (.ok data)
                ∧ responseOk status = true ∧ firstContent data = .ok content
                ∧ r.body = .obj [("reply", content)]
                ∧ serializedKeys r.body = if isUndefined content then [] else ["reply"])
          ∨ ∃ e, r.body = .obj [("error", e)] ∧ truthy e = true
              ∧ serializedKeys r.body = ["error"]
              ∧ (r.status = 400 ∨ r.status = 500
                ∨ ∃ msgs json, getProp reqBody .messages = .ok (.arr msgs)
                    ∧ fetch (chatCompletionRequest apiKey (.arr msgs))
                        = .response r.status json
                    ∧ responseOk r.status = false ∧ validStatus r.status = true)) := by
  have hs : ∀ s : String, s ≠ "" → truthy (.str s) = true := by
    intro s hne
    simp [truthy, hne]
  have hkeys : ∀ e : JSVal, truthy e = true →
      serializedKeys (.obj [("error", e)]) = ["error"] := by
    intro e he
    rw [serializedKeys_single, isUndefined_of_truthy he]
    rfl
  unfold handler
  rcases tryBlock_cases apiKey fetch reqBody with ⟨calls, e, h⟩ | h | ⟨calls, h⟩ |
    ⟨msgs, status, err, payload, hreq, hf, hok, hp, hv, h⟩ |
    ⟨msgs, status, data, content, hreq, hf, hok, hfc, h⟩
  · rw [h, catchBlock_raise]
    have ht := truthy_jsOr (.str e.message) (.str "Internal server error") (hs _ (by decide))
    exact ⟨rfl, _, rfl, Or.inr ⟨_, rfl, ht, hkeys _ ht, Or.inr (Or.inl rfl)⟩⟩
  · rw [h, catchBlock_respond]
    have ht := hs "\x27messages\x27 field is required and must be an array." (by decide)
    exact ⟨rfl, _, rfl, Or.inr ⟨_, rfl, ht, hkeys _ ht, Or.inl rfl⟩⟩
  · rw [h, catchBlock_respond]
    have ht := hs "Invalid response from OpenAI API" (by decide)
    exact ⟨rfl, _, rfl, Or.inr ⟨_, rfl, ht, hkeys _ ht, Or.inr (Or.inl rfl)⟩⟩
  · rw [h, catchBlock_respond]
    have ht := truthy_jsOr payload (.str "OpenAI API error") (hs _ (by decide))
    exact ⟨rfl, _, rfl, Or.inr ⟨_, rfl, ht, hkeys _ ht,
      Or.inr (Or.inr ⟨msgs, _, hreq, hf, hok, hv⟩)⟩⟩
  · rw [h, catchBlock_respond]
    exact ⟨rfl, _, rfl, Or.inl ⟨rfl, msgs, status, data, content, hreq, hf, hok, hfc, rfl,
      serializedKeys_single _ _⟩⟩

end Relay
